import Mathlib

/-!
Verification development for the `oa_evals` agent-evaluation harness.

The definitions below are a shallow embedding of the Python sources:

* `src/oa_evals/acp/schema.py` — content blocks, messages, groups, trajectory;
* `src/oa_evals/acp/builder.py` — `MessageBuffer`, `ToolCallBuilder`,
  `TrajectoryBuilder` (the protocol-update → trajectory state machine);
* `src/oa_evals/metric/builtin/pass_k.py` — the pass@k metric;
* `src/oa_evals/harness/main.py` — trial fan-out and result assembly;
* `src/oa_evals/task/abc.py` — `Task.invoke_prompt`.

Python floats in `pass_k` are modelled as exact rationals (`ℚ`); Python
`dict`s are modelled as insertion-ordered association lists, which matches
CPython's ordered-dict semantics (assignment to an existing key keeps its
position, `del` removes the entry).  A raised `ValueError` is modelled by an
`Option String` error component: mutations performed before the raise (the
raw-log append) persist in the returned state, exactly as they do on the
Python object.
-/

namespace OAEvals

/-- Content blocks (`oa_evals.acp.schema.Content`): tagged union of
text / image / audio / resource / embedded-resource.  The wire-level acp
blocks are converted field-by-field into these (`from_content`), so we use a
single type for both sides. -/
inductive Content where
  | text (text : String)
  | image (data : String) (mimeType : String) (uri : Option String)
  | audio (data : String) (mimeType : String)
  | resource (uri : String) (name : String) (title : Option String)
      (description : Option String) (mimeType : Option String) (size : Option Nat)
  | embeddedResource (uri : String) (mimeType : Option String)
      (text : Option String) (blob : Option String)
deriving DecidableEq, Repr

/-- `oa_evals.acp.schema.Diff`. -/
structure Diff where
  filePath : String
  oldText : Option String
  newText : String
deriving DecidableEq, Repr

/-- `oa_evals.acp.schema.ToolCallContent`: terminal / file-edit / content. -/
inductive ToolCallContent where
  | terminal (terminalId : String)
  | fileEdit (diff : Diff)
  | content (c : Content)
deriving DecidableEq, Repr

/-- `acp.schema.ToolCallStatus` literal values. -/
inductive ToolCallStatus where
  | pending
  | inProgress
  | completed
  | failed
deriving DecidableEq, Repr

/-- Tool kinds are opaque string literals to the builder. -/
abbrev ToolKind := String

/-- `oa_evals.acp.types.SessionUpdate`: the tagged protocol events.  The four
informational kinds carry payloads the builder never reads, so they are
modelled as bare constructors. -/
inductive SessionUpdate where
  | userMessageChunk (content : Content)
  | agentMessageChunk (content : Content)
  | agentThoughtChunk (content : Content)
  | toolCallStart (toolCallId : String) (title : String) (kind : Option ToolKind)
      (status : Option ToolCallStatus) (content : Option (List ToolCallContent))
  | toolCallProgress (toolCallId : String) (title : Option String)
      (kind : Option ToolKind) (status : Option ToolCallStatus)
      (content : Option (List ToolCallContent))
  | agentPlanUpdate
  | availableCommandsUpdate
  | currentModeUpdate
  | sessionInfoUpdate
deriving DecidableEq, Repr

/-- `oa_evals.acp.schema.ToolCall`. -/
structure ToolCall where
  toolCallId : String
  title : String
  kind : Option ToolKind
  content : List ToolCallContent
  status : Option ToolCallStatus
deriving DecidableEq, Repr

/-- `oa_evals.acp.schema.Message`: user / agent / thought message (ordered
content blocks) or a tool call. -/
inductive Message where
  | userMessage (content : List Content)
  | agentMessage (content : List Content)
  | agentThought (content : List Content)
  | toolCall (tc : ToolCall)
deriving DecidableEq, Repr

/-- `oa_evals.acp.schema.MessageGroup`. -/
structure MessageGroup where
  messages : List Message
deriving DecidableEq, Repr

/-- `oa_evals.acp.schema.Trajectory`. -/
structure Trajectory where
  groups : List MessageGroup
deriving DecidableEq, Repr

/-- `Trajectory.messages`: flattened view. -/
def Trajectory.messages (t : Trajectory) : List Message :=
  t.groups.flatMap (·.messages)

/-- `oa_evals.acp.model.TrajectoryData`: the persisted raw update log. -/
structure TrajectoryData where
  updates : List SessionUpdate
deriving DecidableEq, Repr

/-- `oa_evals.acp.builder.ToolCallBuilder`: accumulates one tool call's
fields across progress updates. -/
structure ToolCallBuilder where
  toolCallId : String
  title : String
  kind : Option ToolKind
  status : Option ToolCallStatus
  content : List ToolCallContent
deriving DecidableEq, Repr

/-- `ToolCallBuilder.from_start`: `content=None` becomes `[]`. -/
def ToolCallBuilder.fromStart (toolCallId : String) (title : String)
    (kind : Option ToolKind) (status : Option ToolCallStatus)
    (content : Option (List ToolCallContent)) : ToolCallBuilder :=
  { toolCallId := toolCallId
    title := title
    kind := kind
    status := status
    content := content.getD [] }

/-- `ToolCallBuilder.apply`: a field set in the progress event overwrites the
stored one; an unset field keeps the prior value; a present content list
replaces the stored content wholesale. -/
def ToolCallBuilder.apply (b : ToolCallBuilder) (title : Option String)
    (kind : Option ToolKind) (status : Option ToolCallStatus)
    (content : Option (List ToolCallContent)) : ToolCallBuilder :=
  { b with
    kind := kind.or b.kind
    title := title.getD b.title
    status := status.or b.status
    content := content.getD b.content }

/-- `ToolCallBuilder.build`. -/
def ToolCallBuilder.build (b : ToolCallBuilder) : ToolCall :=
  { toolCallId := b.toolCallId
    title := b.title
    kind := b.kind
    content := b.content
    status := b.status }

/-- `ToolCallBuilder.is_complete`: `status in ("completed", "failed")`. -/
def ToolCallBuilder.isComplete (b : ToolCallBuilder) : Bool :=
  b.status = some .completed || b.status = some .failed

/-- The three bufferable chunk kinds (keys of `TrajectoryBuilder._buffers`;
the Python dict is keyed by chunk type with insertion order
User, Agent, Thought). -/
inductive ChunkKind where
  | user
  | agent
  | thought
deriving DecidableEq, Repr

/-- The three `MessageBuffer`s.  Each holds the pending content chunks; the
factory of each buffer is fixed (`UserMessage` / `AgentMessage` /
`AgentThought`). -/
structure Buffers where
  user : List Content
  agent : List Content
  thought : List Content
deriving DecidableEq, Repr

/-- `MessageBuffer.flush` result on a chunk list: `None` when empty,
otherwise the factory applied to the chunks. -/
def flushList (factory : List Content → Message) (chunks : List Content) :
    Option Message :=
  if chunks.isEmpty then none else some (factory chunks)

/-- Insertion-ordered association-list get (`dict.get`). -/
def assocGet (l : List (String × ToolCallBuilder)) (k : String) :
    Option ToolCallBuilder :=
  match l with
  | [] => none
  | (k', v) :: rest => if k' = k then some v else assocGet rest k

/-- Insertion-ordered association-list set (`d[k] = v`): replaces in place,
else appends. -/
def assocSet (l : List (String × ToolCallBuilder)) (k : String)
    (v : ToolCallBuilder) : List (String × ToolCallBuilder) :=
  match l with
  | [] => [(k, v)]
  | (k', v') :: rest =>
    if k' = k then (k, v) :: rest else (k', v') :: assocSet rest k v

/-- Insertion-ordered association-list delete (`del d[k]`). -/
def assocRemove (l : List (String × ToolCallBuilder)) (k : String) :
    List (String × ToolCallBuilder) :=
  match l with
  | [] => []
  | (k', v') :: rest =>
    if k' = k then rest else (k', v') :: assocRemove rest k

/-- `oa_evals.acp.builder.TrajectoryBuilder` state.  The source keeps one
list `_groups` whose last element is the current group; we split it into
`closedGroups ++ [currentGroup]` (the source list is `groupsList` below). -/
structure TrajectoryBuilder where
  closedGroups : List (List Message)
  currentGroup : List Message
  toolCalls : List (String × ToolCallBuilder)
  buffers : Buffers
  updates : List SessionUpdate
deriving DecidableEq, Repr

namespace TrajectoryBuilder

/-- A fresh builder: `_groups = [[]]`, everything else empty. -/
def empty : TrajectoryBuilder :=
  { closedGroups := []
    currentGroup := []
    toolCalls := []
    buffers := { user := [], agent := [], thought := [] }
    updates := [] }

/-- The source's `_groups` list. -/
def groupsList (b : TrajectoryBuilder) : List (List Message) :=
  b.closedGroups ++ [b.currentGroup]

/-- `TrajectoryBuilder._flush_buffers(keep=...)`: iterate the buffer dict in
insertion order (User, Agent, Thought), skip the kept kind, flush each
non-empty buffer into the current group. -/
def flushBuffers (b : TrajectoryBuilder) (keep : Option ChunkKind) :
    TrajectoryBuilder :=
  let flushed :=
    (if keep = some .user then [] else (flushList .userMessage b.buffers.user).toList) ++
    (if keep = some .agent then [] else (flushList .agentMessage b.buffers.agent).toList) ++
    (if keep = some .thought then [] else (flushList .agentThought b.buffers.thought).toList)
  { b with
    currentGroup := b.currentGroup ++ flushed
    buffers :=
      { user := if keep = some .user then b.buffers.user else []
        agent := if keep = some .agent then b.buffers.agent else []
        thought := if keep = some .thought then b.buffers.thought else [] } }

/-- `TrajectoryBuilder.append`.  The raw-log append (`self._updates.append`)
happens before the dispatch, so it persists even when the unknown-id branch
raises; the raised `ValueError` is the `some` error component of the result.
A completed tool call is appended to the current group, its tracker deleted
and a new empty group started (`_start_new_group`). -/
def append (b : TrajectoryBuilder) (u : SessionUpdate) :
    TrajectoryBuilder × Option String :=
  let b := { b with updates := b.updates ++ [u] }
  match u with
  | .userMessageChunk c =>
    let b := b.flushBuffers (some .user)
    ({ b with buffers := { b.buffers with user := b.buffers.user ++ [c] } }, none)
  | .agentMessageChunk c =>
    let b := b.flushBuffers (some .agent)
    ({ b with buffers := { b.buffers with agent := b.buffers.agent ++ [c] } }, none)
  | .agentThoughtChunk c =>
    let b := b.flushBuffers (some .thought)
    ({ b with buffers := { b.buffers with thought := b.buffers.thought ++ [c] } }, none)
  | .toolCallStart toolCallId title kind status content =>
    let b := b.flushBuffers none
    ({ b with
        toolCalls := assocSet b.toolCalls toolCallId
          (ToolCallBuilder.fromStart toolCallId title kind status content) }, none)
  | .toolCallProgress toolCallId title kind status content =>
    match assocGet b.toolCalls toolCallId with
    | none =>
      (b, some ("Received progress update for unknown tool call ID: " ++ toolCallId))
    | some tcb =>
      let tcb := tcb.apply title kind status content
      if tcb.isComplete then
        ({ b with
            closedGroups := b.closedGroups ++ [b.currentGroup ++ [.toolCall tcb.build]]
            currentGroup := []
            toolCalls := assocRemove b.toolCalls toolCallId }, none)
      else
        ({ b with toolCalls := assocSet b.toolCalls toolCallId tcb }, none)
  | .agentPlanUpdate => (b, none)
  | .availableCommandsUpdate => (b, none)
  | .currentModeUpdate => (b, none)
  | .sessionInfoUpdate => (b, none)

/-- The state mutations performed by `TrajectoryBuilder.build()`: it flushes
every buffer into the current group and appends the built form of every
still-open tracker to the current group (trackers are not removed). -/
def buildAux (b : TrajectoryBuilder) : TrajectoryBuilder :=
  let b := b.flushBuffers none
  { b with
    currentGroup := b.currentGroup ++ b.toolCalls.map (fun kv => Message.toolCall kv.2.build) }

/-- The trajectory read off a builder state: all non-empty groups in creation
order. -/
def toTrajectory (b : TrajectoryBuilder) : Trajectory :=
  { groups := (b.groupsList.filter (fun g => !g.isEmpty)).map MessageGroup.mk }

/-- `TrajectoryBuilder.build()`: return value.  In the source this call also
mutates the builder; the state after the call is `buildAux`. -/
def build (b : TrajectoryBuilder) : Trajectory :=
  b.buildAux.toTrajectory

/-- `TrajectoryBuilder.build_data()`. -/
def buildData (b : TrajectoryBuilder) : TrajectoryData :=
  { updates := b.updates }

/-- Append a list of updates in order; the first raised error aborts. -/
def appendAll (b : TrajectoryBuilder) : List SessionUpdate →
    Except String TrajectoryBuilder
  | [] => .ok b
  | u :: rest =>
    match b.append u with
    | (b', none) => appendAll b' rest
    | (_, some e) => .error e

/-- `TrajectoryBuilder.build_from`: fresh builder, append each update, build
once at the end. -/
def buildFrom (updates : List SessionUpdate) : Except String Trajectory :=
  (appendAll empty updates).map build

/-- Live incremental construction as the trail runner performs it
(`stream_trajectory` / the prompting loop): after every appended update,
`build()` is called, whose state mutation is `buildAux`. -/
def liveSteps (b : TrajectoryBuilder) : List SessionUpdate →
    Except String TrajectoryBuilder
  | [] => .ok b
  | u :: rest =>
    match b.append u with
    | (b', none) => liveSteps b'.buildAux rest
    | (_, some e) => .error e

/-- The final `build()` result of live incremental construction with a
`build()` call after every update: the last `build()` call is the one issued
after the final update, so its value is `toTrajectory` of the state left by
`liveSteps` (which has already applied that call's mutation). -/
def liveBuild (updates : List SessionUpdate) : Except String Trajectory :=
  (liveSteps empty updates).map toTrajectory

end TrajectoryBuilder

/-! ### Metrics (`src/oa_evals/metric`) -/

/-- `oa_evals.metric.schema.Trail[O]` instantiated at `O = OutcomeValue[bool]`
(the shape `pass_k_metric` consumes): one grader outcome plus the rebuilt
trajectory.  `trail.outcome.root` is the boolean. -/
structure MetricTrail where
  outcome : Bool
  traj : Trajectory
deriving DecidableEq

/-- `oa_evals.metric.builtin.pass_k.pass_k`.  Python floats are modelled as
exact rationals; `math.comb` is `Nat.choose`.  On the claim's domain
(`0 ≤ c ≤ n`, `0 ≤ k`) Python's `n - c` coincides with truncated
subtraction. -/
def pass_k (n : ℕ) (c : ℕ := 1) (k : ℕ := 1) : ℚ :=
  if n - c < k then 1
  else 1 - (Nat.choose (n - c) k : ℚ) / (Nat.choose n k : ℚ)

/-- `oa_evals.metric.builtin.pass_k.pass_k_metric`:
`n = len(is_pass)`, `c = sum(trail.outcome.root for trail in is_pass)`
(a Python sum of booleans, i.e. the count of `True`s). -/
def pass_k_metric (is_pass : List MetricTrail) (k : ℕ := 1) : ℚ :=
  let n := is_pass.length
  let c := (is_pass.map (fun trail => if trail.outcome then 1 else 0)).sum
  pass_k n c k

/-! ### Tasks and prompting (`src/oa_evals/task/abc.py`) -/

/-- Prompt blocks are wire content blocks (`oa_evals.acp.prompt.PromptBlock`). -/
abbrev PromptBlock := Content

/-- `Task.prompt`: a single block, a static list of blocks, or a dynamic
generator (`PromptGeneratorProtocol`; the runner treats `None`/empty as the
loop-ending value, so the generator is modelled with the same
`Option (List PromptBlock)` codomain `invoke_prompt` has). -/
inductive TaskPrompt where
  | block (b : PromptBlock)
  | blocks (bs : List PromptBlock)
  | generator (g : Trajectory → Option (List PromptBlock))

/-- Whether the prompt is static (not a callable generator). -/
def TaskPrompt.isStatic : TaskPrompt → Bool
  | .block _ => true
  | .blocks _ => true
  | .generator _ => false

/-- The block list a static prompt denotes (`[self.prompt]` for a single
block). -/
def TaskPrompt.staticBlocks : TaskPrompt → List PromptBlock
  | .block b => [b]
  | .blocks bs => bs
  | .generator _ => []

/-- `Task.invoke_prompt`: a callable generator decides per call; otherwise
`initial = len(traj.groups) == 0` gates a static prompt. -/
def invokePrompt (p : TaskPrompt) (traj : Trajectory) :
    Option (List PromptBlock) :=
  match p with
  | .generator g => g traj
  | .blocks bs => if traj.groups.length = 0 then some bs else none
  | .block b => if traj.groups.length = 0 then some [b] else none

/-! ### Harness (`src/oa_evals/harness/main.py`)

The trial execution itself (`TrailRunner.run`: sandbox build, agent session,
prompting, grading) is I/O against external collaborators; it is abstracted
as a function `exec : Task → ℕ → Except String TrailResult` (`.error` models
an uncaught exception in the trial).  `Harness.run` spawns all
(task, trial-index) pairs into one `anyio` task group gated by the
concurrency semaphore; per `anyio` structured-concurrency semantics an
exception raised in one child cancels the siblings and propagates out of the
task group, so the run as a whole is modelled as aborting at the first
faulting trial (the deterministic `concurrency = 1`, spawn-order schedule;
the abort-on-fault behaviour is schedule-independent). -/

/-- `oa_evals.task.model.TaskMetadata`. -/
structure TaskMetadata where
  id : String
  name : String
  description : Option String := none
deriving DecidableEq, Repr

/-- `oa_evals.grader.model.OutcomeData`, at the boolean instance used by the
built-in metrics. -/
structure OutcomeValue where
  root : Bool
deriving DecidableEq, Repr

/-- `oa_evals.task.model.TrailResult`: persisted raw update log plus
per-grader outcomes. -/
structure TrailResult where
  traj : TrajectoryData
  outcomes : List (String × OutcomeValue)
deriving DecidableEq, Repr

/-- The parts of `oa_evals.task.abc.Task` the harness reads (`prompt`,
container settings and setup hooks only feed the abstracted trial
execution). -/
structure Task where
  metadata : TaskMetadata
deriving DecidableEq, Repr

/-- `oa_evals.harness.model.TaskResult` (outcome metrics abstracted as a
metric-id → value map; an empty registry yields `[]`). -/
structure TaskResult where
  task : TaskMetadata
  trails : List TrailResult
  metrics : List (String × ℚ)
deriving DecidableEq, Repr

/-- `oa_evals.harness.model.HarnessResult`. -/
structure HarnessResult where
  agentId : String
  tasks : List TaskResult
deriving DecidableEq, Repr

/-- `itertools.product(tasks, range(trail_count))` in `Harness.run`'s spawn
order. -/
def trailPairs (tasks : List Task) (trailCount : ℕ) : List (Task × ℕ) :=
  tasks.flatMap (fun t => (List.range trailCount).map (fun i => (t, i)))

/-- Run every spawned trial under the task-group fault policy: the first
faulting trial cancels the rest and propagates.  A completed trial appends
`(task_id, result)` to the shared results store (`Harness._results`). -/
def runAllTrails (pairs : List (Task × ℕ))
    (exec : Task → ℕ → Except String TrailResult) :
    Except String (List (String × TrailResult)) :=
  match pairs with
  | [] => .ok []
  | (t, i) :: rest =>
    match exec t i with
    | .error e => .error e
    | .ok r => (runAllTrails rest exec).map (fun rs => (t.metadata.id, r) :: rs)

/-- `Harness._results.get(task_id, [])`: the arrival-ordered result list of
one task. -/
def resultsFor (rs : List (String × TrailResult)) (taskId : String) :
    List TrailResult :=
  (rs.filter (fun kv => kv.1 = taskId)).map (·.2)

/-- `Harness._build_task_result` with an empty outcome-metric registry:
`TaskResult(task=task.metadata, trails=results, metrics=∅)`. -/
def buildTaskResult (t : Task) (rs : List (String × TrailResult)) : TaskResult :=
  { task := t.metadata, trails := resultsFor rs t.metadata.id, metrics := [] }

/-- `Harness.run`: load tasks, fan out all (task, trial) pairs, then assemble
`HarnessResult` with tasks in load order.  A trial fault propagates out of
the task group, so no result is produced at all. -/
def harnessRun (agentId : String) (tasks : List Task) (trailCount : ℕ)
    (exec : Task → ℕ → Except String TrailResult) : Except String HarnessResult :=
  (runAllTrails (trailPairs tasks trailCount) exec).map fun rs =>
    { agentId := agentId, tasks := tasks.map (fun t => buildTaskResult t rs) }

/-- First-match lookup in the completion-ordered `results` dict of
`Harness._build_harness_result` (each task completes once, so keys are
distinct and first-match equals dict lookup; a missing key is a `KeyError`,
modelled by `none`). -/
def lookupResult (completed : List (String × TaskResult)) (k : String) :
    Option TaskResult :=
  match completed with
  | [] => none
  | (k', v) :: rest => if k' = k then some v else lookupResult rest k

/-- The list comprehension `[results[task.metadata.id] for task in tasks]`:
`none` models the `KeyError` raised for a task with no completed result. -/
def lookupAllTasks (completed : List (String × TaskResult)) :
    List Task → Option (List TaskResult)
  | [] => some []
  | t :: rest =>
    match lookupResult completed t.metadata.id with
    | none => none
    | some r => (lookupAllTasks completed rest).map (fun rs => r :: rs)

/-- `Harness._build_harness_result`: per-task results complete concurrently
into a dict (modelled as the completion-ordered association list), then
`[results[task.metadata.id] for task in tasks]` restores original load
order. -/
def buildHarnessResult (agentId : String) (tasks : List Task)
    (completed : List (String × TaskResult)) : Option HarnessResult :=
  (lookupAllTasks completed tasks).map
    (fun trs => { agentId := agentId, tasks := trs })

/-! ### Sample states used by concrete witnesses -/

/-- Builder state holding one open (incomplete) tracker for id `"1"`. -/
def sampleOpenTracker : TrajectoryBuilder :=
  (TrajectoryBuilder.empty.append
    (.toolCallStart "1" "tool" (some "execute") (some .inProgress) none)).1

/-- The tracker stored in `sampleOpenTracker`. -/
def sampleTracker : ToolCallBuilder :=
  ToolCallBuilder.fromStart "1" "tool" (some "execute") (some .inProgress) none

/-! ### Theorems -/

/-- C5: on arrival of a User/Agent/Thought chunk, every open buffer except
the one matching the update's kind is flushed into the current group in the
fixed order User, Agent, Thought, and the update's content is appended to the
matching buffer; in particular `UserChunk("x")` then `AgentChunk("y")`
finalizes to one group `[UserMessage(x), AgentMessage(y)]`. -/
theorem chunk_kind_switch_flush :
    (∀ (b : TrajectoryBuilder) (c : Content),
      b.append (.userMessageChunk c) =
        ({ b with
            updates := b.updates ++ [.userMessageChunk c]
            currentGroup := b.currentGroup ++
              (flushList .agentMessage b.buffers.agent).toList ++
              (flushList .agentThought b.buffers.thought).toList
            buffers := { user := b.buffers.user ++ [c], agent := [], thought := [] } },
          none)) ∧
    (∀ (b : TrajectoryBuilder) (c : Content),
      b.append (.agentMessageChunk c) =
        ({ b with
            updates := b.updates ++ [.agentMessageChunk c]
            currentGroup := b.currentGroup ++
              (flushList .userMessage b.buffers.user).toList ++
              (flushList .agentThought b.buffers.thought).toList
            buffers := { user := [], agent := b.buffers.agent ++ [c], thought := [] } },
          none)) ∧
    (∀ (b : TrajectoryBuilder) (c : Content),
      b.append (.agentThoughtChunk c) =
        ({ b with
            updates := b.updates ++ [.agentThoughtChunk c]
            currentGroup := b.currentGroup ++
              (flushList .userMessage b.buffers.user).toList ++
              (flushList .agentMessage b.buffers.agent).toList
            buffers := { user := [], agent := [], thought := b.buffers.thought ++ [c] } },
          none)) ∧
    TrajectoryBuilder.buildFrom
        [.userMessageChunk (.text "x"), .agentMessageChunk (.text "y")] =
      .ok ⟨[⟨[.userMessage [.text "x"], .agentMessage [.text "y"]]⟩]⟩ := by
  refine ⟨?_, ?_, ?_, rfl⟩ <;>
    intro b c <;>
    simp [TrajectoryBuilder.append, TrajectoryBuilder.flushBuffers]

/-- C4: the sequence ThoughtChunk("t"), ToolCallStart(id=1),
ToolCallProgress(id=1, completed), AgentChunk("done") finalizes to exactly
two groups `[AgentThought(t), ToolCall(1, completed)]` and
`[AgentMessage(done)]`; in general a completing ToolCallProgress appends the
built ToolCall to the current group, discards the tracker, and opens a new
empty group. -/
theorem tool_call_completion_group_boundary :
    TrajectoryBuilder.buildFrom
        [.agentThoughtChunk (.text "t"),
         .toolCallStart "1" "tool" (some "execute") (some .inProgress) none,
         .toolCallProgress "1" none none (some .completed) none,
         .agentMessageChunk (.text "done")] =
      .ok ⟨[⟨[.agentThought [.text "t"],
              .toolCall ⟨"1", "tool", some "execute", [], some .completed⟩]⟩,
            ⟨[.agentMessage [.text "done"]]⟩]⟩ ∧
    ∀ (b : TrajectoryBuilder) (toolCallId : String) (title : Option String)
      (kind : Option ToolKind) (status : Option ToolCallStatus)
      (content : Option (List ToolCallContent)) (tcb : ToolCallBuilder),
      assocGet b.toolCalls toolCallId = some tcb →
      (tcb.apply title kind status content).isComplete = true →
      b.append (.toolCallProgress toolCallId title kind status content) =
        ({ b with
            updates := b.updates ++ [.toolCallProgress toolCallId title kind status content]
            closedGroups := b.closedGroups ++
              [b.currentGroup ++ [.toolCall (tcb.apply title kind status content).build]]
            currentGroup := []
            toolCalls := assocRemove b.toolCalls toolCallId },
          none) := by
  refine ⟨rfl, ?_⟩
  intro b toolCallId title kind status content tcb hget hdone
  simp [TrajectoryBuilder.append, hget, hdone]

/-- Witness for C4's general part: the completing progress update applied to
the concrete state holding the open tracker for id `"1"`. -/
theorem tool_call_completion_group_boundary_witness :
    sampleOpenTracker.append (.toolCallProgress "1" none none (some .completed) none) =
      ({ sampleOpenTracker with
          updates := sampleOpenTracker.updates ++
            [.toolCallProgress "1" none none (some .completed) none]
          closedGroups := sampleOpenTracker.closedGroups ++
            [sampleOpenTracker.currentGroup ++
              [.toolCall ((sampleTracker.apply none none (some .completed) none)).build]]
          currentGroup := []
          toolCalls := assocRemove sampleOpenTracker.toolCalls "1" },
        none) :=
  tool_call_completion_group_boundary.2 sampleOpenTracker "1" none none
    (some .completed) none sampleTracker (by decide) (by decide)

/-- C3: appending a ToolCallProgress whose id has no open tracker raises the
protocol-violation `ValueError` (stream consumption aborts, the update is not
silently ignored) and leaves groups, buffers and trackers — hence the result
of `build()` — unchanged. -/
theorem unknown_progress_leaves_trajectory_unchanged
    (b : TrajectoryBuilder) (toolCallId : String) (title : Option String)
    (kind : Option ToolKind) (status : Option ToolCallStatus)
    (content : Option (List ToolCallContent))
    (h : assocGet b.toolCalls toolCallId = none) :
    (b.append (.toolCallProgress toolCallId title kind status content)).2 =
      some ("Received progress update for unknown tool call ID: " ++ toolCallId) ∧
    (b.append (.toolCallProgress toolCallId title kind status content)).1.closedGroups =
      b.closedGroups ∧
    (b.append (.toolCallProgress toolCallId title kind status content)).1.currentGroup =
      b.currentGroup ∧
    (b.append (.toolCallProgress toolCallId title kind status content)).1.buffers =
      b.buffers ∧
    (b.append (.toolCallProgress toolCallId title kind status content)).1.toolCalls =
      b.toolCalls ∧
    (b.append (.toolCallProgress toolCallId title kind status content)).1.build =
      b.build := by
  refine ⟨?_, ?_, ?_, ?_, ?_, ?_⟩ <;>
    simp [TrajectoryBuilder.append, h, TrajectoryBuilder.build,
      TrajectoryBuilder.buildAux, TrajectoryBuilder.toTrajectory,
      TrajectoryBuilder.groupsList, TrajectoryBuilder.flushBuffers]

/-- Witness for C3: a fresh builder has no tracker, so a progress update for
id `"x"` faults there and the trajectory is unchanged. -/
theorem unknown_progress_leaves_trajectory_unchanged_witness :
    (TrajectoryBuilder.empty.append
        (.toolCallProgress "x" none none (some .completed) none)).2 =
      some ("Received progress update for unknown tool call ID: " ++ "x") ∧
    (TrajectoryBuilder.empty.append
        (.toolCallProgress "x" none none (some .completed) none)).1.build =
      TrajectoryBuilder.empty.build :=
  ⟨(unknown_progress_leaves_trajectory_unchanged TrajectoryBuilder.empty "x"
      none none (some .completed) none (by decide)).1,
   (unknown_progress_leaves_trajectory_unchanged TrajectoryBuilder.empty "x"
      none none (some .completed) none (by decide)).2.2.2.2.2⟩

/-- C10: `append` records every update in the raw log before any other
processing: the log always gains the update, even for ignored kinds and even
when the unknown-id branch raises — after the failed append, `build_data()`
still contains the faulting update. -/
theorem append_records_update_first :
    (∀ (b : TrajectoryBuilder) (u : SessionUpdate),
      ((b.append u).1).updates = b.updates ++ [u]) ∧
    ((TrajectoryBuilder.empty.append
        (.toolCallProgress "x" none none (some .completed) none)).2).isSome = true ∧
    ((TrajectoryBuilder.empty.append
        (.toolCallProgress "x" none none (some .completed) none)).1).buildData =
      ⟨[.toolCallProgress "x" none none (some .completed) none]⟩ ∧
    ((TrajectoryBuilder.empty.append .agentPlanUpdate).1).buildData =
      ⟨[.agentPlanUpdate]⟩ := by
  refine ⟨?_, rfl, rfl, rfl⟩
  intro b u
  cases u with
  | toolCallProgress toolCallId title kind status content =>
    cases hget : assocGet b.toolCalls toolCallId with
    | none => simp [TrajectoryBuilder.append, hget]
    | some tcb =>
      by_cases hdone : (tcb.apply title kind status content).isComplete = true
      · simp [TrajectoryBuilder.append, hget, hdone]
      · simp [TrajectoryBuilder.append, hget, hdone]
  | _ => simp [TrajectoryBuilder.append, TrajectoryBuilder.flushBuffers]

/-- C1 (failing input): the replay invariant does not hold on the code.
For the two-update sequence UserChunk("x"), UserChunk("y"), rebuilding from
the raw log (`build_from`) coalesces the chunks into one `UserMessage`, but
live incremental construction with a `build()` call after every update
(exactly how the trail runner consumes the stream) yields two separate
`UserMessage`s, because `build()` drains the live buffers into the current
group.  The two trajectories differ. -/
theorem replay_invariant_fails_on_code :
    TrajectoryBuilder.buildFrom
        [.userMessageChunk (.text "x"), .userMessageChunk (.text "y")] =
      .ok ⟨[⟨[.userMessage [.text "x", .text "y"]]⟩]⟩ ∧
    TrajectoryBuilder.liveBuild
        [.userMessageChunk (.text "x"), .userMessageChunk (.text "y")] =
      .ok ⟨[⟨[.userMessage [.text "x"], .userMessage [.text "y"]]⟩]⟩ ∧
    (⟨[⟨[.userMessage [.text "x", .text "y"]]⟩]⟩ : Trajectory) ≠
      ⟨[⟨[.userMessage [.text "x"], .userMessage [.text "y"]]⟩]⟩ :=
  ⟨rfl, rfl, by decide⟩

/-- C2 (failing input): `build()` is destructive and not repeatable.
With one open (incomplete) tracker, the first `build()` call appends the
tracker's built form to the current group without removing the tracker, so
the second consecutive `build()` call returns a trajectory containing the
tool call twice.  `build()` also drains the live buffers: after buffering
AgentChunk("a") the buffers change across a `build()` call, and interleaving
`build()` between AgentChunk("a") and AgentChunk("b") splits what should be
one coalesced message. -/
theorem build_finalization_destructive :
    sampleOpenTracker.build =
      ⟨[⟨[.toolCall ⟨"1", "tool", some "execute", [], some .inProgress⟩]⟩]⟩ ∧
    sampleOpenTracker.buildAux.build =
      ⟨[⟨[.toolCall ⟨"1", "tool", some "execute", [], some .inProgress⟩,
          .toolCall ⟨"1", "tool", some "execute", [], some .inProgress⟩]⟩]⟩ ∧
    sampleOpenTracker.build ≠ sampleOpenTracker.buildAux.build ∧
    ((TrajectoryBuilder.empty.append (.agentMessageChunk (.text "a"))).1).buildAux.buffers ≠
      ((TrajectoryBuilder.empty.append (.agentMessageChunk (.text "a"))).1).buffers ∧
    TrajectoryBuilder.liveBuild
        [.agentMessageChunk (.text "a"), .agentMessageChunk (.text "b")] =
      .ok ⟨[⟨[.agentMessage [.text "a"], .agentMessage [.text "b"]]⟩]⟩ ∧
    TrajectoryBuilder.buildFrom
        [.agentMessageChunk (.text "a"), .agentMessageChunk (.text "b")] =
      .ok ⟨[⟨[.agentMessage [.text "a", .text "b"]]⟩]⟩ :=
  ⟨rfl, rfl, by decide, by decide, rfl, rfl⟩

/-- A Python sum of booleans is the count of `True`s. -/
theorem sum_bool_indicator_eq_countP (l : List MetricTrail) :
    (l.map (fun trail => if trail.outcome then 1 else 0)).sum =
      l.countP (fun trail => trail.outcome) := by
  induction l with
  | nil => simp
  | cons hd tl ih =>
    by_cases h : hd.outcome <;> simp [List.countP_cons, ih, h] <;> omega

/-- C6: for `c ≤ n`, `pass_k` returns 1 when `n − c < k` and otherwise
`1 − C(n−c,k)/C(n,k)`; `pass_k 5 3 2 = 0.9`; and `pass_k_metric` computes
`pass_k` with `n` the number of trails and `c` the count of trails whose
boolean outcome is true. -/
theorem pass_k_formula (n c k : ℕ) (h : c ≤ n) :
    (n - c < k → pass_k n c k = 1) ∧
    (k ≤ n - c →
      pass_k n c k = 1 - (Nat.choose (n - c) k : ℚ) / (Nat.choose n k : ℚ)) ∧
    pass_k 5 3 2 = 9 / 10 ∧
    ∀ (trails : List MetricTrail) (j : ℕ),
      pass_k_metric trails j =
        pass_k trails.length (trails.countP (fun trail => trail.outcome)) j := by
  refine ⟨?_, ?_, ?_, ?_⟩
  · intro hlt; simp [pass_k, hlt]
  · intro hge; simp [pass_k, Nat.not_lt.mpr hge]
  · norm_num [pass_k, Nat.choose]
  · intro trails j
    simp [pass_k_metric, sum_bool_indicator_eq_countP]

/-- Witness for C6: the spec's worked example `pass_k 5 3 2 = 0.9`. -/
theorem pass_k_formula_witness : pass_k 5 3 2 = 9 / 10 :=
  (pass_k_formula 5 3 2 (by norm_num)).2.2.1

/-- C9: for a static prompt (single block or list of blocks, not a callable
generator), `invoke_prompt` returns the prompt blocks iff the trajectory has
no groups and returns `None` iff at least one group exists — the static
prompt fires exactly once, before any group exists. -/
theorem static_prompt_fires_once (p : TaskPrompt) (traj : Trajectory)
    (h : p.isStatic = true) :
    (invokePrompt p traj = some p.staticBlocks ↔ traj.groups = []) ∧
    (invokePrompt p traj = none ↔ traj.groups ≠ []) := by
  cases p with
  | generator g => simp [TaskPrompt.isStatic] at h
  | block b =>
    by_cases hg : traj.groups = [] <;>
      simp [invokePrompt, TaskPrompt.staticBlocks, hg, List.length_eq_zero]
  | blocks bs =>
    by_cases hg : traj.groups = [] <;>
      simp [invokePrompt, TaskPrompt.staticBlocks, hg, List.length_eq_zero]

/-- Witness for C9: a static one-block prompt fires on the empty trajectory
and is `None` once a group exists. -/
theorem static_prompt_fires_once_witness :
    invokePrompt (.block (.text "go")) ⟨[]⟩ = some [.text "go"] ∧
    invokePrompt (.block (.text "go")) ⟨[⟨[]⟩]⟩ = none :=
  ⟨(static_prompt_fires_once (.block (.text "go")) ⟨[]⟩ rfl).1.mpr rfl,
   (static_prompt_fires_once (.block (.text "go")) ⟨[⟨[]⟩]⟩ rfl).2.mpr (by decide)⟩

/-- A faulting trial anywhere in the spawned pair list makes the whole
task-group run propagate an error. -/
theorem runAllTrails_error_of_fault (pairs : List (Task × ℕ))
    (exec : Task → ℕ → Except String TrailResult) (p : Task × ℕ) (e : String)
    (hmem : p ∈ pairs) (hfault : exec p.1 p.2 = .error e) :
    ∃ e', runAllTrails pairs exec = .error e' := by
  induction pairs with
  | nil => cases hmem
  | cons hd tl ih =>
    rcases List.mem_cons.mp hmem with rfl | htl
    · exact ⟨e, by simp [runAllTrails, hfault]⟩
    · cases hhd : exec hd.1 hd.2 with
      | error e0 => exact ⟨e0, by simp [runAllTrails, hhd]⟩
      | ok r =>
        obtain ⟨e', he'⟩ := ih htl
        exact ⟨e', by simp [runAllTrails, hhd, he', Except.map]⟩

/-- Trial executor used by the concrete C7 instances: the single trial of
task `"t1"` raises, the trials of every other task succeed with an empty
result. -/
def faultyExec : Task → ℕ → Except String TrailResult :=
  fun t _ => if t.metadata.id = "t1" then .error "boom" else .ok ⟨⟨[]⟩, []⟩

/-- C7 counterexample: with two tasks of one trial each and the first trial
raising, `Harness.run` does not return a `HarnessResult` at all — the fault
propagates out of the `anyio` task group (cancelling the sibling trial of
task `"t2"`, whose result never appears) and aborts the run. -/
theorem trial_fault_counterexample :
    harnessRun "agent" [⟨⟨"t1", "task one", none⟩⟩, ⟨⟨"t2", "task two", none⟩⟩] 1
      faultyExec = .error "boom" := rfl

/-- C7 amended: an uncaught fault in any spawned trial propagates out of the
task group, so `Harness.run` raises instead of returning a `HarnessResult`;
per-task trail lists (and the "k of N succeeded" count) are produced only
when no trial faults. -/
theorem trial_fault_aborts_run (agentId : String) (tasks : List Task)
    (trailCount : ℕ) (exec : Task → ℕ → Except String TrailResult)
    (p : Task × ℕ) (e : String) (hmem : p ∈ trailPairs tasks trailCount)
    (hfault : exec p.1 p.2 = .error e) :
    ∃ e', harnessRun agentId tasks trailCount exec = .error e' := by
  obtain ⟨e', he'⟩ :=
    runAllTrails_error_of_fault (trailPairs tasks trailCount) exec p e hmem hfault
  exact ⟨e', by simp [harnessRun, he', Except.map]⟩

/-- Witness for C7's amended statement at the concrete faulting executor. -/
theorem trial_fault_aborts_run_witness :
    ∃ e', harnessRun "agent"
      [⟨⟨"t1", "task one", none⟩⟩, ⟨⟨"t2", "task two", none⟩⟩] 1
      faultyExec = .error e' :=
  trial_fault_aborts_run "agent"
    [⟨⟨"t1", "task one", none⟩⟩, ⟨⟨"t2", "task two", none⟩⟩] 1 faultyExec
    (⟨⟨"t1", "task one", none⟩⟩, 0) "boom" (by decide) rfl

/-- With distinct keys, a successful first-match lookup is exactly
membership. -/
theorem lookupResult_eq_some_iff (completed : List (String × TaskResult))
    (hnodup : (completed.map Prod.fst).Nodup) (k : String) (v : TaskResult) :
    lookupResult completed k = some v ↔ (k, v) ∈ completed := by
  induction completed with
  | nil => simp [lookupResult]
  | cons hd tl ih =>
    obtain ⟨k', v'⟩ := hd
    simp only [List.map_cons, List.nodup_cons] at hnodup
    obtain ⟨hk, htl⟩ := hnodup
    simp only [lookupResult, List.mem_cons, Prod.mk.injEq]
    by_cases hkey : k' = k
    · subst hkey
      rw [if_pos rfl]
      constructor
      · intro hv
        obtain rfl : v' = v := Option.some_inj.mp hv
        exact Or.inl ⟨rfl, rfl⟩
      · rintro (⟨-, rfl⟩ | hmemtl)
        · rfl
        · exact absurd (List.mem_map.mpr ⟨(k', v), hmemtl, rfl⟩) hk
    · simp only [if_neg hkey, ih htl]
      constructor
      · intro hv
        exact Or.inr hv
      · rintro (⟨rfl, -⟩ | hmemtl)
        · exact absurd rfl hkey
        · exact hmemtl

/-- A failed first-match lookup is exactly key absence. -/
theorem lookupResult_eq_none_iff (completed : List (String × TaskResult))
    (k : String) :
    lookupResult completed k = none ↔ k ∉ completed.map Prod.fst := by
  induction completed with
  | nil => simp [lookupResult]
  | cons hd tl ih =>
    obtain ⟨k', v'⟩ := hd
    by_cases hkey : k' = k
    · subst hkey
      simp [lookupResult]
    · simp [lookupResult, if_neg hkey, ih, Ne.symm hkey]

/-- Dict lookup is invariant under the completion order: permuting an
association list with distinct keys does not change any lookup. -/
theorem lookupResult_perm (completed completed' : List (String × TaskResult))
    (hperm : completed.Perm completed')
    (hnodup : (completed.map Prod.fst).Nodup) (k : String) :
    lookupResult completed k = lookupResult completed' k := by
  have hnodup' : (completed'.map Prod.fst).Nodup :=
    ((hperm.map Prod.fst).nodup_iff).mp hnodup
  cases hv : lookupResult completed k with
  | none =>
    have hk := (lookupResult_eq_none_iff completed k).mp hv
    have hk' : k ∉ completed'.map Prod.fst := fun hmem =>
      hk ((hperm.map Prod.fst).mem_iff.mpr hmem)
    exact ((lookupResult_eq_none_iff completed' k).mpr hk').symm
  | some v =>
    have hmem := (lookupResult_eq_some_iff completed hnodup k v).mp hv
    exact ((lookupResult_eq_some_iff completed' hnodup' k v).mpr
      (hperm.mem_iff.mp hmem)).symm

/-- C8: `_build_harness_result` lists the `TaskResult`s in original task load
order, independent of the order in which per-task results completed: for any
permutation of the completion order (distinct task ids), the assembled
`HarnessResult` is the same, and when every loaded task has a completed
result it equals the load-ordered list of those results. -/
theorem harness_tasks_load_order (agentId : String) (tasks : List Task)
    (completed completed' : List (String × TaskResult)) (f : Task → TaskResult)
    (hperm : completed.Perm completed')
    (hnodup : (completed.map Prod.fst).Nodup)
    (hcover : ∀ t ∈ tasks, lookupResult completed t.metadata.id = some (f t)) :
    buildHarnessResult agentId tasks completed =
      some { agentId := agentId, tasks := tasks.map f } ∧
    buildHarnessResult agentId tasks completed' =
      buildHarnessResult agentId tasks completed := by
  constructor
  · suffices hlook : lookupAllTasks completed tasks = some (tasks.map f) by
      simp [buildHarnessResult, hlook]
    induction tasks with
    | nil => rfl
    | cons hd tl ih =>
      have hhd := hcover hd (List.mem_cons_self hd tl)
      have htl := ih fun t ht => hcover t (List.mem_cons_of_mem hd ht)
      simp [lookupAllTasks, hhd, htl]
  · suffices hlook : ∀ ts : List Task,
        lookupAllTasks completed' ts = lookupAllTasks completed ts by
      simp [buildHarnessResult, hlook]
    intro ts
    induction ts with
    | nil => rfl
    | cons hd tl ih =>
      rw [lookupAllTasks, lookupAllTasks, ih,
        lookupResult_perm completed completed' hperm hnodup hd.metadata.id]

/-- Witness for C8: two tasks whose results completed in reversed order still
assemble in load order. -/
theorem harness_tasks_load_order_witness :
    buildHarnessResult "agent" [⟨⟨"a", "task a", none⟩⟩, ⟨⟨"b", "task b", none⟩⟩]
        [("a", ⟨⟨"a", "task a", none⟩, [], []⟩), ("b", ⟨⟨"b", "task b", none⟩, [], []⟩)] =
      some { agentId := "agent",
             tasks := [⟨⟨"a", "task a", none⟩, [], []⟩, ⟨⟨"b", "task b", none⟩, [], []⟩] } ∧
    buildHarnessResult "agent" [⟨⟨"a", "task a", none⟩⟩, ⟨⟨"b", "task b", none⟩⟩]
        [("b", ⟨⟨"b", "task b", none⟩, [], []⟩), ("a", ⟨⟨"a", "task a", none⟩, [], []⟩)] =
      buildHarnessResult "agent" [⟨⟨"a", "task a", none⟩⟩, ⟨⟨"b", "task b", none⟩⟩]
        [("a", ⟨⟨"a", "task a", none⟩, [], []⟩), ("b", ⟨⟨"b", "task b", none⟩, [], []⟩)] := by
  have h := harness_tasks_load_order "agent"
    [⟨⟨"a", "task a", none⟩⟩, ⟨⟨"b", "task b", none⟩⟩]
    [("a", ⟨⟨"a", "task a", none⟩, [], []⟩), ("b", ⟨⟨"b", "task b", none⟩, [], []⟩)]
    [("b", ⟨⟨"b", "task b", none⟩, [], []⟩), ("a", ⟨⟨"a", "task a", none⟩, [], []⟩)]
    (fun t => ⟨t.metadata, [], []⟩)
    (List.Perm.swap _ _ _) (by decide) (by decide)
  exact ⟨h.1, h.2⟩

end OAEvals
